import Mathlib

/-!
# Verification of the Particle notebook (`src/python/classes.ipynb`)

The notebook develops a running example: a particle four-momentum
`(px, py, pz, E)`, an invariant-mass computation
`sqrt(E^2 - (px^2 + py^2 + pz^2))`, and addition of two particles.
The representation evolves through four stages:

1. `calc_mass_simple(px, py, pz, E)` — a free function on four numbers;
2. a dict `{'px': .., 'py': .., 'pz': .., 'E': ..}` with a free function
   `calc_mass(particle)` (and `make_particle` building such dicts);
3. `class SimpleParticle` with a `calc_mass` method;
4. `class Particle` with `calc_mass` and `__add__`, plus the subclasses
   `VerboseParticle` (adds only a `momentum_text` method) and
   `BetterParticle` (adds a `superpower` attribute, default 42).

Numeric values in the notebook are Python floats; the embedding models
them as exact rationals `ℚ` (every literal appearing in the notebook is a
decimal fraction), and `numpy.sqrt` as a partial map into `ℝ`:
`np.sqrt` returns the real square root of a nonnegative input and a
not-a-number sentinel (modelled as `none`) for a negative input.
-/

/-- Model of `numpy.sqrt` on an exact rational input: the real square
root for a nonnegative argument, and `none` (numpy's NaN result for a
negative argument) otherwise. -/
noncomputable def np.sqrt (x : ℚ) : Option ℝ :=
  if 0 ≤ x then some (Real.sqrt (x : ℝ)) else none

/-- `calc_mass_simple(px, py, pz, E) = np.sqrt(E ** 2 - (px ** 2 + py ** 2 + pz ** 2))`. -/
noncomputable def calc_mass_simple (px py pz E : ℚ) : Option ℝ :=
  np.sqrt (E ^ 2 - (px ^ 2 + py ^ 2 + pz ^ 2))

/-- The dict `{'px': .., 'py': .., 'pz': .., 'E': ..}` used by the
dict-based stage.  (The later `make_particle` variant also stores a
`'mass'` key holding the function `calc_mass` itself; invoking that entry
is exactly applying `calc_mass` to the dict, so the numeric payload is
the four components.) -/
structure ParticleDict where
  px : ℚ
  py : ℚ
  pz : ℚ
  E : ℚ

/-- Dict-based `calc_mass(particle)`: computes the local
`momentum = px^2 + py^2 + pz^2` and returns `np.sqrt(E^2 - momentum)`. -/
noncomputable def calc_mass (particle : ParticleDict) : Option ℝ :=
  let momentum := particle.px ^ 2 + particle.py ^ 2 + particle.pz ^ 2
  np.sqrt (particle.E ^ 2 - momentum)

/-- `make_particle(px, py, pz, E)` returns the dict with the four
components stored unchanged (its `'mass'` entry holds `calc_mass`). -/
def make_particle (px py pz E : ℚ) : ParticleDict :=
  { px := px, py := py, pz := pz, E := E }

/-- `class SimpleParticle`: four attributes set by `__init__`. -/
structure SimpleParticle where
  px : ℚ
  py : ℚ
  pz : ℚ
  E : ℚ

/-- `SimpleParticle.calc_mass(self)` delegates to `calc_mass_simple` on
the stored attributes. -/
noncomputable def SimpleParticle.calc_mass (self : SimpleParticle) : Option ℝ :=
  calc_mass_simple self.px self.py self.pz self.E

/-- The dynamic (runtime) type of a value of the `Particle` class
hierarchy: `Particle`, or one of its subclasses `VerboseParticle`
(adds only a method) and `BetterParticle` (adds a `superpower`
attribute). -/
inductive PClass where
  | particle
  | verboseParticle
  | betterParticle
  deriving DecidableEq, Repr

/-- A runtime object of the `Particle` hierarchy: its dynamic type
`cls`, the four attributes every `__init__` in the hierarchy stores, and
the `superpower` attribute, present (`some`) exactly on objects built by
`BetterParticle.__init__` and absent (`none`) otherwise. -/
structure PValue where
  cls : PClass
  px : ℚ
  py : ℚ
  pz : ℚ
  E : ℚ
  superpower : Option ℚ
  deriving DecidableEq, Repr

/-- `Particle(px, py, pz, E)`: `__init__` stores the four arguments
unchanged; no validation, no other attribute. -/
def Particle.new (px py pz E : ℚ) : PValue :=
  { cls := PClass.particle, px := px, py := py, pz := pz, E := E,
    superpower := none }

/-- `VerboseParticle(px, py, pz, E)`: the subclass defines no `__init__`
of its own, so `Particle.__init__` runs; the dynamic type is
`VerboseParticle`. -/
def VerboseParticle.new (px py pz E : ℚ) : PValue :=
  { cls := PClass.verboseParticle, px := px, py := py, pz := pz, E := E,
    superpower := none }

/-- `BetterParticle(px, py, pz, E, superpower)`: calls
`super().__init__(px, py, pz, E)` and then stores `superpower`. -/
def BetterParticle.new (px py pz E superpower : ℚ) : PValue :=
  { cls := PClass.betterParticle, px := px, py := py, pz := pz, E := E,
    superpower := some superpower }

/-- `BetterParticle(px, py, pz, E)` with the default `superpower=42`. -/
def BetterParticle.newDefault (px py pz E : ℚ) : PValue :=
  BetterParticle.new px py pz E 42

/-- `Particle.calc_mass(self)` delegates to `calc_mass_simple` on the
stored attributes. -/
noncomputable def Particle.calc_mass (self : PValue) : Option ℝ :=
  calc_mass_simple self.px self.py self.pz self.E

/-- `Particle.__add__(self, other)`: the four locals `new_px`, `new_py`,
`new_pz`, `new_E` are the pairwise sums, and the result is
`Particle(new_px, new_py, new_pz, new_E)` — the class name `Particle` is
hardcoded (the notebook's `type(self)` fix appears only in the prose, in
no code cell). -/
def Particle.add (self other : PValue) : PValue :=
  let new_px := self.px + other.px
  let new_py := self.py + other.py
  let new_pz := self.pz + other.pz
  let new_E := self.E + other.E
  Particle.new new_px new_py new_pz new_E

/-- Method resolution for `+` on the hierarchy: neither
`VerboseParticle` nor `BetterParticle` overrides `__add__`, so every
dynamic type resolves to the inherited `Particle.__add__`. -/
def resolveAdd : PClass → (PValue → PValue → PValue)
  | PClass.particle => Particle.add
  | PClass.verboseParticle => Particle.add
  | PClass.betterParticle => Particle.add

/-- `a + b` on hierarchy objects: dispatch `__add__` on the dynamic type
of the left operand. -/
def PValue.add (a b : PValue) : PValue :=
  resolveAdd a.cls a b

/-- Method resolution for `calc_mass` on the hierarchy: no subclass
overrides it, so every dynamic type resolves to `Particle.calc_mass`. -/
noncomputable def resolveCalcMass : PClass → (PValue → Option ℝ)
  | PClass.particle => Particle.calc_mass
  | PClass.verboseParticle => Particle.calc_mass
  | PClass.betterParticle => Particle.calc_mass

/-- `a.calc_mass()` on a hierarchy object: dispatch on the dynamic type. -/
noncomputable def PValue.calcMass (a : PValue) : Option ℝ :=
  resolveCalcMass a.cls a

/-- Statement-by-statement translation of `Particle.calc_mass` in
state-passing form: the returned pair is the method's result together
with the state of `self` after the call.  The method body is a single
`return`; it assigns to no attribute, so the final state is the initial
one. -/
noncomputable def Particle.calc_mass_run (self : PValue) : Option ℝ × PValue :=
  (calc_mass_simple self.px self.py self.pz self.E, self)

/-- Statement-by-statement translation of `Particle.__add__` in
state-passing form: the returned triple is the method's result together
with the states of `self` and `other` after the call.  The body assigns
only to the four locals, never to an attribute of `self` or `other`. -/
def Particle.add_run (self other : PValue) : PValue × PValue × PValue :=
  let new_px := self.px + other.px
  let new_py := self.py + other.py
  let new_pz := self.pz + other.pz
  let new_E := self.E + other.E
  (Particle.new new_px new_py new_pz new_E, self, other)

/-! ## Helper lemmas -/

lemma PValue.add_cls (a b : PValue) : (PValue.add a b).cls = PClass.particle := by
  rcases a with ⟨c, _, _, _, _, _⟩
  cases c <;> rfl

lemma PValue.add_px (a b : PValue) : (PValue.add a b).px = a.px + b.px := by
  rcases a with ⟨c, _, _, _, _, _⟩
  cases c <;> rfl

lemma PValue.add_py (a b : PValue) : (PValue.add a b).py = a.py + b.py := by
  rcases a with ⟨c, _, _, _, _, _⟩
  cases c <;> rfl

lemma PValue.add_pz (a b : PValue) : (PValue.add a b).pz = a.pz + b.pz := by
  rcases a with ⟨c, _, _, _, _, _⟩
  cases c <;> rfl

lemma PValue.add_E (a b : PValue) : (PValue.add a b).E = a.E + b.E := by
  rcases a with ⟨c, _, _, _, _, _⟩
  cases c <;> rfl

lemma PValue.add_superpower (a b : PValue) : (PValue.add a b).superpower = none := by
  rcases a with ⟨c, _, _, _, _, _⟩
  cases c <;> rfl

lemma calc_mass_simple_of_nonneg (px py pz E : ℚ)
    (h : 0 ≤ E ^ 2 - (px ^ 2 + py ^ 2 + pz ^ 2)) :
    calc_mass_simple px py pz E
      = some (Real.sqrt ((E ^ 2 - (px ^ 2 + py ^ 2 + pz ^ 2) : ℚ) : ℝ)) := by
  unfold calc_mass_simple np.sqrt
  rw [if_pos h]

/-! ## Claim theorems -/

/-- C2: for every two `Particle`-hierarchy values `a` and `b`, `a + b`
produces a new value whose four components are the pairwise sums of the
operands' components. -/
theorem C2_add_componentwise (a b : PValue) :
    (PValue.add a b).px = a.px + b.px ∧
    (PValue.add a b).py = a.py + b.py ∧
    (PValue.add a b).pz = a.pz + b.pz ∧
    (PValue.add a b).E = a.E + b.E :=
  ⟨PValue.add_px a b, PValue.add_py a b, PValue.add_pz a b, PValue.add_E a b⟩

/-- C6: particle addition is commutative and associative on the four
stored components: the components of `a + b` equal those of `b + a`, and
the components of `(a + b) + c` equal those of `a + (b + c)`. -/
theorem C6_add_comm_assoc_components (a b c : PValue) :
    ((PValue.add a b).px = (PValue.add b a).px ∧
     (PValue.add a b).py = (PValue.add b a).py ∧
     (PValue.add a b).pz = (PValue.add b a).pz ∧
     (PValue.add a b).E = (PValue.add b a).E) ∧
    ((PValue.add (PValue.add a b) c).px = (PValue.add a (PValue.add b c)).px ∧
     (PValue.add (PValue.add a b) c).py = (PValue.add a (PValue.add b c)).py ∧
     (PValue.add (PValue.add a b) c).pz = (PValue.add a (PValue.add b c)).pz ∧
     (PValue.add (PValue.add a b) c).E = (PValue.add a (PValue.add b c)).E) := by
  refine ⟨⟨?_, ?_, ?_, ?_⟩, ⟨?_, ?_, ?_, ?_⟩⟩ <;>
    simp only [PValue.add_px, PValue.add_py, PValue.add_pz, PValue.add_E] <;>
    ring

/-- C7: constructing a `Particle` stores the four input values unchanged
with no validation, and reading back the four fields returns exactly the
inputs. -/
theorem C7_init_roundtrip (px py pz E : ℚ) :
    (Particle.new px py pz E).px = px ∧
    (Particle.new px py pz E).py = py ∧
    (Particle.new px py pz E).pz = pz ∧
    (Particle.new px py pz E).E = E :=
  ⟨rfl, rfl, rfl, rfl⟩

/-- C8: `calc_mass` and `__add__` are pure: evaluating them leaves the
stored fields of both operands unchanged (the state-passing translations
return `self` and `other` exactly as they came in). -/
theorem C8_methods_pure (a b : PValue) :
    (Particle.calc_mass_run a).2 = a ∧
    (Particle.add_run a b).2.1 = a ∧
    (Particle.add_run a b).2.2 = b :=
  ⟨rfl, rfl, rfl⟩

/-- C9: adding two `BetterParticle` values (built with the default
`superpower=42` or any explicit superpower) succeeds and returns a base
`Particle` with no `superpower` attribute: the inherited `__add__`
silently drops the extra state. -/
theorem C9_better_add_drops_superpower
    (px1 py1 pz1 E1 s1 px2 py2 pz2 E2 s2 : ℚ) :
    (PValue.add (BetterParticle.new px1 py1 pz1 E1 s1)
        (BetterParticle.new px2 py2 pz2 E2 s2)).cls = PClass.particle ∧
    (PValue.add (BetterParticle.new px1 py1 pz1 E1 s1)
        (BetterParticle.new px2 py2 pz2 E2 s2)).superpower = none ∧
    (PValue.add (BetterParticle.new px1 py1 pz1 E1 s1)
        (BetterParticle.new px2 py2 pz2 E2 s2)).px = px1 + px2 ∧
    (PValue.add (BetterParticle.new px1 py1 pz1 E1 s1)
        (BetterParticle.new px2 py2 pz2 E2 s2)).E = E1 + E2 ∧
    (BetterParticle.newDefault px1 py1 pz1 E1).superpower = some 42 :=
  ⟨rfl, rfl, rfl, rfl, rfl⟩

/-- C10: the four successive mass implementations are extensionally
equal: on every quadruple, `calc_mass_simple`, the dict-based
`calc_mass` (on the dict built from the quadruple), the
`SimpleParticle` method and the `Particle` method return the same
value. -/
theorem C10_mass_implementations_agree (px py pz E : ℚ) :
    calc_mass { px := px, py := py, pz := pz, E := E } = calc_mass_simple px py pz E ∧
    calc_mass (make_particle px py pz E) = calc_mass_simple px py pz E ∧
    SimpleParticle.calc_mass ⟨px, py, pz, E⟩ = calc_mass_simple px py pz E ∧
    Particle.calc_mass (Particle.new px py pz E) = calc_mass_simple px py pz E :=
  ⟨rfl, rfl, rfl, rfl⟩

/-- C1 counterexample: the notebook's own test — two `VerboseParticle`
values added — yields a result of dynamic type `Particle`, not
`VerboseParticle`, so `a + b` does not return the dynamic type of the
left operand. -/
theorem C1_counterexample :
    (VerboseParticle.new 10 10 10 50).cls = PClass.verboseParticle ∧
    (PValue.add (VerboseParticle.new 10 10 10 50)
        (VerboseParticle.new 10 10 10 50)).cls = PClass.particle ∧
    PClass.particle ≠ PClass.verboseParticle :=
  ⟨rfl, rfl, by decide⟩

/-- C1 (amended): `__add__` as implemented hardcodes the class name, so
`a + b` always has dynamic type `Particle`; whenever the left operand's
dynamic type is a proper subclass, the result's dynamic type differs
from it (the `type(self)` fix appears only in the notebook's prose). -/
theorem C1_amended_add_returns_base (a b : PValue) :
    (PValue.add a b).cls = PClass.particle ∧
    (a.cls ≠ PClass.particle → (PValue.add a b).cls ≠ a.cls) :=
  ⟨PValue.add_cls a b,
   fun h hc => h (hc.symm.trans (PValue.add_cls a b))⟩

/-- C1 witness: concrete instance of the amended claim at a
`VerboseParticle` left operand. -/
theorem C1_amended_witness :
    (PValue.add (VerboseParticle.new 1 2 3 4) (Particle.new 5 6 7 8)).cls
      = PClass.particle ∧
    (PValue.add (VerboseParticle.new 1 2 3 4) (Particle.new 5 6 7 8)).cls
      ≠ (VerboseParticle.new 1 2 3 4).cls :=
  ⟨(C1_amended_add_returns_base (VerboseParticle.new 1 2 3 4) (Particle.new 5 6 7 8)).1,
   (C1_amended_add_returns_base (VerboseParticle.new 1 2 3 4) (Particle.new 5 6 7 8)).2
     (by decide)⟩

/-- C3: whenever the radicand is nonnegative, `calc_mass` computes
`sqrt(E^2 - (px^2 + py^2 + pz^2))`; in particular on
`(px=10, py=20, pz=30, E=100)` it returns `sqrt(8600)`, which lies
strictly between `92.73` and `92.74` (≈ 92.736). -/
theorem C3_calc_mass_formula (px py pz E : ℚ)
    (h : px ^ 2 + py ^ 2 + pz ^ 2 ≤ E ^ 2) :
    Particle.calc_mass (Particle.new px py pz E)
      = some (Real.sqrt ((E ^ 2 - (px ^ 2 + py ^ 2 + pz ^ 2) : ℚ) : ℝ)) ∧
    Particle.calc_mass (Particle.new 10 20 30 100) = some (Real.sqrt 8600) ∧
    (92.73 : ℝ) < Real.sqrt 8600 ∧ Real.sqrt 8600 < 92.74 := by
  refine ⟨calc_mass_simple_of_nonneg px py pz E (by linarith), ?_, ?_, ?_⟩
  · have h2 := calc_mass_simple_of_nonneg 10 20 30 100 (by norm_num)
    rw [show Particle.calc_mass (Particle.new 10 20 30 100)
          = calc_mass_simple 10 20 30 100 from rfl, h2]
    norm_num
  · rw [Real.lt_sqrt (by norm_num)]
    norm_num
  · rw [Real.sqrt_lt' (by norm_num)]
    norm_num

/-- C3 witness: the theorem applied at `(10, 20, 30, 100)`. -/
theorem C3_calc_mass_formula_witness :
    Particle.calc_mass (Particle.new 10 20 30 100) = some (Real.sqrt 8600) :=
  (C3_calc_mass_formula 10 20 30 100 (by norm_num)).2.1

/-- C4 counterexample: at `(px=20, py=30, pz=20, E=41.234227)` the
radicand is positive, not negative — `41.234227^2 = 1700.261476287529`
exceeds `20^2 + 30^2 + 20^2 = 1700` — so `calc_mass` (both the
dict-based version reached through `make_particle` and
`calc_mass_simple`) returns a real value, not an error or NaN. -/
theorem C4_counterexample :
    (1700 : ℚ) < (41.234227 : ℚ) ^ 2 ∧
    calc_mass (make_particle 20 30 20 41.234227) ≠ none ∧
    calc_mass_simple 20 30 20 41.234227 ≠ none := by
  refine ⟨by norm_num, ?_, ?_⟩ <;>
  · simp only [calc_mass, make_particle, calc_mass_simple, np.sqrt]
    rw [if_pos (by norm_num)]
    exact Option.some_ne_none _

/-- C4 (amended): on `(px=20, py=30, pz=20, E=41.234227)` the radicand
equals `261476287529/10^12 ≈ 0.2615 > 0`, so `calc_mass` returns
`sqrt(41.234227^2 - 1700)`, a real number strictly between `0.511` and
`0.512` — the near-boundary case is on the valid side of the domain. -/
theorem C4_amended_positive_radicand :
    (41.234227 : ℚ) ^ 2 - (20 ^ 2 + 30 ^ 2 + 20 ^ 2)
      = 261476287529 / 1000000000000 ∧
    calc_mass (make_particle 20 30 20 41.234227)
      = some (Real.sqrt ((261476287529 / 1000000000000 : ℚ) : ℝ)) ∧
    (0.511 : ℝ) < Real.sqrt ((261476287529 / 1000000000000 : ℚ) : ℝ) ∧
    Real.sqrt ((261476287529 / 1000000000000 : ℚ) : ℝ) < 0.512 := by
  refine ⟨by norm_num, ?_, ?_, ?_⟩
  · have h2 := calc_mass_simple_of_nonneg 20 30 20 41.234227 (by norm_num)
    rw [show calc_mass (make_particle 20 30 20 41.234227)
          = calc_mass_simple 20 30 20 41.234227 from rfl, h2]
    norm_num
  · rw [Real.lt_sqrt (by norm_num)]
    push_cast
    norm_num
  · rw [Real.sqrt_lt' (by norm_num)]
    push_cast
    norm_num

/-- C5: `calc_mass` yields the NaN/error result exactly when
`E^2 < px^2 + py^2 + pz^2`; under `E^2 ≥ px^2 + py^2 + pz^2` it returns
a real number (the square root of the radicand) and no error path is
reachable. -/
theorem C5_calc_mass_error_iff (px py pz E : ℚ) :
    (calc_mass_simple px py pz E = none ↔ E ^ 2 < px ^ 2 + py ^ 2 + pz ^ 2) ∧
    (px ^ 2 + py ^ 2 + pz ^ 2 ≤ E ^ 2 →
      calc_mass_simple px py pz E
        = some (Real.sqrt ((E ^ 2 - (px ^ 2 + py ^ 2 + pz ^ 2) : ℚ) : ℝ))) := by
  constructor
  · constructor
    · intro hnone
      by_contra hlt
      push_neg at hlt
      rw [calc_mass_simple_of_nonneg px py pz E (by linarith)] at hnone
      exact Option.noConfusion hnone
    · intro hlt
      unfold calc_mass_simple np.sqrt
      rw [if_neg (by linarith)]
  · intro h
    exact calc_mass_simple_of_nonneg px py pz E (by linarith)

/-- C5 witness: the error case at `(10, 20, 30, 1)` (radicand `-1399`)
and the success case at `(10, 20, 30, 100)` (radicand `8600`). -/
theorem C5_calc_mass_error_iff_witness :
    calc_mass_simple 10 20 30 1 = none ∧
    calc_mass_simple 10 20 30 100
      = some (Real.sqrt (((100 : ℚ) ^ 2 - (10 ^ 2 + 20 ^ 2 + 30 ^ 2) : ℚ) : ℝ)) :=
  ⟨(C5_calc_mass_error_iff 10 20 30 1).1.mpr (by norm_num),
   (C5_calc_mass_error_iff 10 20 30 100).2 (by norm_num)⟩
